import Mathlib

/-!
Shallow embedding of the modern-ecommerce Stripe payment server.

The source is an Express application.  Request handlers are embedded as pure
functions from the request data (and the external collaborators: the Stripe
client, the clock, the environment) to the HTTP response they send.  Calls to
the payment provider are made observable by returning, next to the response,
the list of argument records passed to the provider during the request.
-/

namespace ECom

/-- JSON (or text) response body shapes the server produces. -/
inductive RespBody where
  | errOnly (error : String)
  | errWithMsg (error : String) (message : Option String)
  | success (clientSecret : String) (paymentIntentId : String)
  | notFound (error : String) (availableEndpoints : List String)
  | received (ack : Bool)
  | text (s : String)
deriving DecidableEq, Repr

/-- An HTTP response: status code plus body. -/
structure Response where
  status : Nat
  body : RespBody
deriving DecidableEq, Repr

/-- The argument record passed to stripe.paymentIntents.create
(src/unnamed/part_000, lines 69-79).  The metadata object literal
with its object-spread is embedded as an association list in which a
later binding shadows an earlier one (JavaScript spread semantics). -/
structure CreateParams where
  amount : Int
  currency : String
  payment_method_types : List String
  metadata : List (String × String)
  description : String
deriving DecidableEq, Repr

/-- The fields of the provider-created payment intent the server reads. -/
structure PaymentIntent where
  id : String
  client_secret : String
deriving DecidableEq, Repr

/-- A provider error as observed in the catch block: its type tag and message. -/
structure StripeError where
  type : String
  message : String
deriving DecidableEq, Repr

/-- The parsed JSON body of a POST /create-payment-intent request.
Absent fields are none; amounts are JSON numbers, embedded as rationals. -/
structure PaymentRequestBody where
  amount : Option ℚ
  currency : Option String
  metadata : Option (List (String × String))

/-- JavaScript Math.round: nearest integer, ties rounded toward positive
infinity, i.e. the floor of x + 1/2. -/
def jsRound (x : ℚ) : Int := Int.floor (x + 1 / 2)

/-- Lookup in an association list embedding a JavaScript object literal:
the last binding of a key wins (object spread shadowing). -/
def objLookup (l : List (String × String)) (k : String) : Option String :=
  l.foldl (fun acc kv => if kv.1 = k then some kv.2 else acc) none

/-- The catch block of the create-payment-intent handler
(src/unnamed/part_000, lines 89-116): maps the provider error type tag to a
status code and body. -/
def stripeErrorResponse (error : StripeError) : Response :=
  if error.type = "StripeCardError" then
    { status := 400, body := .errOnly error.message }
  else if error.type = "StripeRateLimitError" then
    { status := 429, body := .errOnly "Too many requests. Please try again later." }
  else if error.type = "StripeInvalidRequestError" then
    { status := 400, body := .errOnly "Invalid request parameters." }
  else if error.type = "StripeAPIError" then
    { status := 500, body := .errOnly "Stripe API error. Please try again." }
  else if error.type = "StripeConnectionError" then
    { status := 500, body := .errOnly "Network error. Please check your connection." }
  else if error.type = "StripeAuthenticationError" then
    { status := 401, body := .errOnly "Authentication error. Please check your API keys." }
  else
    { status := 500, body := .errOnly "An unexpected error occurred. Please try again." }

/-- The argument object passed to stripe.paymentIntents.create
(src/unnamed/part_000, lines 69-79): the rounded amount, the lower-cased
currency (the destructuring default "usd" applied when absent), card-only
payment methods, and the caller metadata spread followed by the fixed source
and created_at bindings (which therefore shadow caller bindings). -/
def intentParams (amount : ℚ) (currency : Option String)
    (metadata : Option (List (String × String))) (now : String) : CreateParams :=
  { amount := jsRound amount
    currency := (currency.getD "usd").map Char.toLower
    payment_method_types := ["card"]
    metadata := (metadata.getD []) ++
      [("source", "modern-ecommerce"), ("created_at", now)]
    description := "Modern E-commerce Purchase" }

/-- The POST /create-payment-intent handler (src/unnamed/part_000, lines
46-117).  now is the ISO timestamp of new Date(); create is the
stripe.paymentIntents.create call.  Returns the response sent together with
the list of provider invocations made during the request.  The JavaScript
truthiness test (!amount) holds for an absent amount and for amount 0. -/
def createPaymentIntentHandler (req : PaymentRequestBody) (now : String)
    (create : CreateParams → Except StripeError PaymentIntent) :
    Response × List CreateParams :=
  match req.amount with
  | none => ({ status := 400, body := .errOnly "Amount is required" }, [])
  | some amount =>
    if amount = 0 then
      ({ status := 400, body := .errOnly "Amount is required" }, [])
    else if amount < 50 then
      ({ status := 400, body := .errOnly "Amount must be at least $0.50 (50 cents)" }, [])
    else
      let params : CreateParams := intentParams amount req.currency req.metadata now
      match create params with
      | .ok paymentIntent =>
        ({ status := 200,
           body := .success paymentIntent.client_secret paymentIntent.id }, [params])
      | .error e => (stripeErrorResponse e, [params])

/-- A Stripe webhook event as the handler reads it: its type tag and the
identifier of the carried object (event.data.object). -/
structure WebhookEvent where
  type : String
  object_id : String
deriving DecidableEq, Repr

/-- Which arm of the webhook event switch ran (src/unnamed/part_000, lines
266-289); every arm only writes a log line. -/
inductive DispatchBranch where
  | succeeded
  | failed
  | attached
  | unhandled
deriving DecidableEq, Repr

/-- JavaScript a-or-b on strings (the || defaulting of the webhook secret):
the default is used when the left side is undefined or the empty string. -/
def jsOrString : Option String → String → String
  | none, d => d
  | some s, d => if s = "" then d else s

/-- The webhook event switch (src/unnamed/part_000, lines 266-289). -/
def webhookDispatch (event : WebhookEvent) : DispatchBranch :=
  if event.type = "payment_intent.succeeded" then .succeeded
  else if event.type = "payment_intent.payment_failed" then .failed
  else if event.type = "payment_method.attached" then .attached
  else .unhandled

/-- The POST /webhook handler (src/unnamed/part_000, lines 245-293).
constructEvent is stripe.webhooks.constructEvent applied to the raw body, the
stripe-signature header and the endpoint secret; it throws (here: .error) when
signature verification fails.  Returns the response together with the switch
arm dispatched, or none when verification failed before dispatch. -/
def webhookHandler (body : String) (sig : Option String)
    (envWebhookSecret : Option String)
    (constructEvent : String → Option String → String → Except String WebhookEvent) :
    Response × Option DispatchBranch :=
  let endpointSecret := jsOrString envWebhookSecret "whsec_test_..."
  match constructEvent body sig endpointSecret with
  | .error errMessage =>
    ({ status := 400, body := .text ("Webhook Error: " ++ errMessage) }, none)
  | .ok event =>
    ({ status := 200, body := .received true }, some (webhookDispatch event))

/-- The 404 fallback handler (src/unnamed/part_000, lines 129-141). -/
def notFoundHandler : Response :=
  { status := 404
    body := .notFound "Endpoint not found"
      ["GET /", "POST /create-payment-intent", "POST /webhook",
       "POST /api/auth/signup", "POST /api/auth/signin", "GET /api/auth/me"] }

/-- The error-handling middleware (src/unnamed/part_000, lines 120-126):
nodeEnv is process.env.NODE_ENV, errorMessage the caught error's message.
The message field is undefined (none) unless NODE_ENV is "development". -/
def errorMiddleware (nodeEnv : Option String) (errorMessage : String) : Response :=
  { status := 500
    body := .errWithMsg "Internal server error"
      (if nodeEnv = some "development" then some errorMessage else none) }

/-- What an Express middleware step does with a request: send a response, or
call next() to pass control to the following step. -/
inductive StepResult where
  | respond (r : Response)
  | next
deriving Repr

/-- The part of an authenticated request that the protect guard inspects:
whether a valid credential accompanies the request. -/
structure AuthRequest where
  hasValidCredential : Bool
deriving DecidableEq, Repr

/-- Modelled from the spec: the protect middleware lives in
src/middleware/auth.js, which is not among the provided sources; per the spec
it is "a prior authentication guard" under which a request "without a valid
credential must fail before reaching the handler".  It therefore responds
with an authentication failure instead of calling next() exactly when the
request carries no valid credential. -/
def protect (req : AuthRequest) : StepResult :=
  if req.hasValidCredential then .next else .respond { status := 401, body := .errOnly "Not authorized" }

/-- Express middleware chaining: run the steps in order; the first one that
responds determines the response, later steps never run. -/
def runChain : List (AuthRequest → StepResult) → AuthRequest → Option Response
  | [], _ => none
  | step :: rest, req =>
    match step req with
    | .respond r => some r
    | .next => runChain rest req

/-- The GET /api/auth/me route (src/routes/authRoutes.js, line 10):
router.get applies protect first, then the getMe handler. -/
def meRoute (getMe : AuthRequest → StepResult) : List (AuthRequest → StepResult) :=
  [protect, getMe]

/-- A provider stub that always succeeds, used to instantiate theorems. -/
def okCreate : CreateParams → Except StripeError PaymentIntent :=
  fun _ => .ok { id := "pi_123", client_secret := "cs_456" }

/-- A concrete card error, used to instantiate theorems. -/
def cardErr : StripeError :=
  { type := "StripeCardError", message := "Your card was declined." }

/-- A provider stub that always fails with cardErr. -/
def errCreate : CreateParams → Except StripeError PaymentIntent :=
  fun _ => .error cardErr

/-- A signature verifier stub that always rejects. -/
def failVerify : String → Option String → String → Except String WebhookEvent :=
  fun _ _ _ => .error "No signatures found matching the expected signature for payload"

/-- A signature verifier stub that always accepts with an unhandled event type. -/
def okVerify : String → Option String → String → Except String WebhookEvent :=
  fun _ _ _ => .ok { type := "charge.refunded", object_id := "ch_1" }

/-- Helper: for a truthy amount of at least 50, the provider is called once
with intentParams. -/
theorem handler_calls (a : ℚ) (h0 : ¬ a = 0) (hlt : ¬ a < 50) (cur : Option String)
    (md : Option (List (String × String))) (now : String)
    (create : CreateParams → Except StripeError PaymentIntent) :
    (createPaymentIntentHandler ⟨some a, cur, md⟩ now create).2
      = [intentParams a cur md now] := by
  simp only [createPaymentIntentHandler]
  rw [if_neg h0, if_neg hlt]
  cases create (intentParams a cur md now) <;> rfl

/-- Helper: for a truthy amount of at least 50, a successful provider call
yields the 200 response with the intent's client secret and id. -/
theorem handler_resp_ok (a : ℚ) (h0 : ¬ a = 0) (hlt : ¬ a < 50) (cur : Option String)
    (md : Option (List (String × String))) (now : String)
    (create : CreateParams → Except StripeError PaymentIntent)
    (paymentIntent : PaymentIntent)
    (hc : create (intentParams a cur md now) = .ok paymentIntent) :
    (createPaymentIntentHandler ⟨some a, cur, md⟩ now create).1
      = { status := 200,
          body := .success paymentIntent.client_secret paymentIntent.id } := by
  simp only [createPaymentIntentHandler]
  rw [if_neg h0, if_neg hlt, hc]

/-- Helper: for a truthy amount of at least 50, a failed provider call yields
the catch-block response for the thrown error. -/
theorem handler_resp_err (a : ℚ) (h0 : ¬ a = 0) (hlt : ¬ a < 50) (cur : Option String)
    (md : Option (List (String × String))) (now : String)
    (create : CreateParams → Except StripeError PaymentIntent) (e : StripeError)
    (hc : create (intentParams a cur md now) = .error e) :
    (createPaymentIntentHandler ⟨some a, cur, md⟩ now create).1
      = stripeErrorResponse e := by
  simp only [createPaymentIntentHandler]
  rw [if_neg h0, if_neg hlt, hc]

/-- Helper: in the merged metadata object, the fixed source and created_at
bindings shadow any caller-supplied bindings of the same keys. -/
theorem objLookup_append_fixed (md : List (String × String)) (now : String) :
    objLookup (md ++ [("source", "modern-ecommerce"), ("created_at", now)]) "source"
      = some "modern-ecommerce" ∧
    objLookup (md ++ [("source", "modern-ecommerce"), ("created_at", now)]) "created_at"
      = some now := by
  unfold objLookup
  rw [List.foldl_append, List.foldl_append]
  constructor <;> rfl

/-- Claim C1: for every create-payment-intent request with amount at least 50,
the provider is invoked exactly once, with the integer-rounded amount, the
lower-cased currency defaulting to "usd", card-only payment methods, and the
caller metadata merged with the fixed source tag and creation timestamp; and
whenever that provider call succeeds the response is the 200 body carrying the
created intent's client secret and identifier. -/
theorem create_intent_ge50 (a : ℚ) (ha : 50 ≤ a) (cur : Option String)
    (md : Option (List (String × String))) (now : String)
    (create : CreateParams → Except StripeError PaymentIntent) :
    (createPaymentIntentHandler ⟨some a, cur, md⟩ now create).2
        = [intentParams a cur md now] ∧
    (intentParams a cur md now).amount = jsRound a ∧
    (intentParams a cur md now).currency = (cur.getD "usd").map Char.toLower ∧
    (intentParams a cur md now).payment_method_types = ["card"] ∧
    (intentParams a cur md now).metadata
        = (md.getD []) ++ [("source", "modern-ecommerce"), ("created_at", now)] ∧
    ∀ paymentIntent : PaymentIntent,
      create (intentParams a cur md now) = .ok paymentIntent →
      (createPaymentIntentHandler ⟨some a, cur, md⟩ now create).1
        = { status := 200,
            body := .success paymentIntent.client_secret paymentIntent.id } := by
  have h0 : ¬ a = 0 := by rintro rfl; norm_num at ha
  have hlt : ¬ a < 50 := not_lt.mpr ha
  exact ⟨handler_calls a h0 hlt cur md now create, rfl, rfl, rfl, rfl,
    fun paymentIntent hc => handler_resp_ok a h0 hlt cur md now create paymentIntent hc⟩

/-- Witness for claim C1 at amount 100 with an always-succeeding provider. -/
theorem create_intent_ge50_witness :
    (50 : ℚ) ≤ 100 ∧
    (createPaymentIntentHandler ⟨some 100, none, none⟩ "2024-01-01T00:00:00.000Z" okCreate).2
      = [intentParams 100 none none "2024-01-01T00:00:00.000Z"] ∧
    (createPaymentIntentHandler ⟨some 100, none, none⟩ "2024-01-01T00:00:00.000Z" okCreate).1
      = { status := 200, body := .success "cs_456" "pi_123" } := by
  refine ⟨by norm_num, ?_, ?_⟩
  · exact (create_intent_ge50 100 (by norm_num) none none "2024-01-01T00:00:00.000Z" okCreate).1
  · exact (create_intent_ge50 100 (by norm_num) none none "2024-01-01T00:00:00.000Z"
      okCreate).2.2.2.2.2 { id := "pi_123", client_secret := "cs_456" } rfl

/-- Claim C2: every create-payment-intent request with amount below 50 is
answered 400 without any provider call; amount 49 yields the minimum-amount
error body, and an absent amount yields the amount-required error body. -/
theorem create_below_min (a : ℚ) (ha : a < 50) (cur : Option String)
    (md : Option (List (String × String))) (now : String)
    (create : CreateParams → Except StripeError PaymentIntent) :
    ((createPaymentIntentHandler ⟨some a, cur, md⟩ now create).1.status = 400 ∧
     (createPaymentIntentHandler ⟨some a, cur, md⟩ now create).2 = []) ∧
    createPaymentIntentHandler ⟨some 49, cur, md⟩ now create
      = ({ status := 400,
           body := .errOnly "Amount must be at least $0.50 (50 cents)" }, []) ∧
    createPaymentIntentHandler ⟨none, cur, md⟩ now create
      = ({ status := 400, body := .errOnly "Amount is required" }, []) := by
  refine ⟨?_, ?_, rfl⟩
  · by_cases h0 : a = 0
    · subst h0; exact ⟨rfl, rfl⟩
    · simp only [createPaymentIntentHandler]
      rw [if_neg h0, if_pos ha]
      exact ⟨rfl, rfl⟩
  · simp only [createPaymentIntentHandler]
    rw [if_neg (by norm_num : ¬ (49 : ℚ) = 0), if_pos (by norm_num : (49 : ℚ) < 50)]

/-- Witness for claim C2 at amount 49 and at an absent amount. -/
theorem create_below_min_witness :
    (49 : ℚ) < 50 ∧
    (createPaymentIntentHandler ⟨some 49, none, none⟩ "t" okCreate).1.status = 400 ∧
    (createPaymentIntentHandler ⟨some 49, none, none⟩ "t" okCreate).2 = [] ∧
    createPaymentIntentHandler ⟨some 49, none, none⟩ "t" okCreate
      = ({ status := 400,
           body := .errOnly "Amount must be at least $0.50 (50 cents)" }, []) ∧
    createPaymentIntentHandler ⟨none, none, none⟩ "t" okCreate
      = ({ status := 400, body := .errOnly "Amount is required" }, []) := by
  have h := create_below_min 49 (by norm_num) none none "t" okCreate
  exact ⟨by norm_num, h.1.1, h.1.2, h.2.1, h.2.2⟩

/-- Claim C3: when the provider call fails, the response is determined by the
provider error type tag: card 400 with the provider message, rate limit 429,
invalid request 400 generic, API error 500, connection error 500,
authentication error 401, anything else a generic 500. -/
theorem provider_error_mapping (a : ℚ) (ha : 50 ≤ a) (cur : Option String)
    (md : Option (List (String × String))) (now : String)
    (create : CreateParams → Except StripeError PaymentIntent) (e : StripeError)
    (hfail : create (intentParams a cur md now) = .error e) :
    (createPaymentIntentHandler ⟨some a, cur, md⟩ now create).1
        = stripeErrorResponse e ∧
    (e.type = "StripeCardError" →
      stripeErrorResponse e = { status := 400, body := .errOnly e.message }) ∧
    (e.type = "StripeRateLimitError" →
      stripeErrorResponse e
        = { status := 429, body := .errOnly "Too many requests. Please try again later." }) ∧
    (e.type = "StripeInvalidRequestError" →
      stripeErrorResponse e
        = { status := 400, body := .errOnly "Invalid request parameters." }) ∧
    (e.type = "StripeAPIError" →
      stripeErrorResponse e
        = { status := 500, body := .errOnly "Stripe API error. Please try again." }) ∧
    (e.type = "StripeConnectionError" →
      stripeErrorResponse e
        = { status := 500, body := .errOnly "Network error. Please check your connection." }) ∧
    (e.type = "StripeAuthenticationError" →
      stripeErrorResponse e
        = { status := 401, body := .errOnly "Authentication error. Please check your API keys." }) ∧
    (e.type ∉ ["StripeCardError", "StripeRateLimitError", "StripeInvalidRequestError",
               "StripeAPIError", "StripeConnectionError", "StripeAuthenticationError"] →
      stripeErrorResponse e
        = { status := 500,
            body := .errOnly "An unexpected error occurred. Please try again." }) := by
  have h0 : ¬ a = 0 := by rintro rfl; norm_num at ha
  have hlt : ¬ a < 50 := not_lt.mpr ha
  refine ⟨handler_resp_err a h0 hlt cur md now create e hfail,
    ?_, ?_, ?_, ?_, ?_, ?_, ?_⟩
  · intro h; simp [stripeErrorResponse, h]
  · intro h; simp [stripeErrorResponse, h]
  · intro h; simp [stripeErrorResponse, h]
  · intro h; simp [stripeErrorResponse, h]
  · intro h; simp [stripeErrorResponse, h]
  · intro h; simp [stripeErrorResponse, h]
  · intro h
    simp only [List.mem_cons, List.not_mem_nil, or_false, not_or] at h
    obtain ⟨h1, h2, h3, h4, h5, h6⟩ := h
    simp [stripeErrorResponse, h1, h2, h3, h4, h5, h6]

/-- Witness for claim C3 with a provider that throws a card error. -/
theorem provider_error_mapping_witness :
    (createPaymentIntentHandler ⟨some 100, none, none⟩ "t" errCreate).1
      = { status := 400, body := .errOnly "Your card was declined." } := by
  have h := provider_error_mapping 100 (by norm_num) none none "t" errCreate cardErr rfl
  rw [h.1]
  exact h.2.1 rfl

/-- Claim C9: an amount of 0 (a falsy value) is caught by the absence check,
so the response is 400 with the amount-required body, the provider is not
called, and the minimum-amount message is never produced for amount 0. -/
theorem create_amount_zero (cur : Option String)
    (md : Option (List (String × String))) (now : String)
    (create : CreateParams → Except StripeError PaymentIntent) :
    createPaymentIntentHandler ⟨some 0, cur, md⟩ now create
      = ({ status := 400, body := .errOnly "Amount is required" }, []) ∧
    (createPaymentIntentHandler ⟨some 0, cur, md⟩ now create).1.body
      ≠ .errOnly "Amount must be at least $0.50 (50 cents)" := by
  constructor
  · rfl
  · have h : (createPaymentIntentHandler ⟨some 0, cur, md⟩ now create).1.body
        = .errOnly "Amount is required" := rfl
    rw [h]
    decide

/-- Claim C10: for any accepted amount, the fixed metadata bindings shadow
caller-supplied bindings: the provider is called once, and in that call's
metadata the source key resolves to "modern-ecommerce" and the created_at key
to the server timestamp, whatever the caller metadata contained. -/
theorem fixed_metadata_precedence (a : ℚ) (ha : 50 ≤ a) (cur : Option String)
    (md : List (String × String)) (now : String)
    (create : CreateParams → Except StripeError PaymentIntent) :
    (createPaymentIntentHandler ⟨some a, cur, some md⟩ now create).2.map
        (fun p => (objLookup p.metadata "source", objLookup p.metadata "created_at"))
      = [(some "modern-ecommerce", some now)] := by
  have h0 : ¬ a = 0 := by rintro rfl; norm_num at ha
  have hlt : ¬ a < 50 := not_lt.mpr ha
  rw [handler_calls a h0 hlt cur (some md) now create, List.map_cons, List.map_nil]
  have h := objLookup_append_fixed md now
  simp only [intentParams, Option.getD_some]
  rw [h.1, h.2]

/-- Witness for claim C10 with caller metadata that tries to override both
fixed keys. -/
theorem fixed_metadata_precedence_witness :
    (50 : ℚ) ≤ 100 ∧
    (createPaymentIntentHandler
        ⟨some 100, none, some [("source", "attacker"), ("created_at", "1970")]⟩
        "t" okCreate).2.map
        (fun p => (objLookup p.metadata "source", objLookup p.metadata "created_at"))
      = [(some "modern-ecommerce", some "t")] := by
  exact ⟨by norm_num, fixed_metadata_precedence 100 (by norm_num) none
    [("source", "attacker"), ("created_at", "1970")] "t" okCreate⟩

/-- Claim C4: when signature verification throws, the webhook responds 400
with a text body that is exactly "Webhook Error:" followed by a space and the
verification error text, and no event dispatch occurs (the dispatch component
is none). -/
theorem webhook_invalid_signature (body : String) (sig : Option String)
    (envSecret : Option String) (msg : String)
    (constructEvent : String → Option String → String → Except String WebhookEvent)
    (h : constructEvent body sig (jsOrString envSecret "whsec_test_...") = .error msg) :
    webhookHandler body sig envSecret constructEvent
      = ({ status := 400, body := .text ("Webhook Error: " ++ msg) }, none) ∧
    ∃ rest, "Webhook Error: " ++ msg = "Webhook Error:" ++ rest ∧ rest = " " ++ msg := by
  constructor
  · simp only [webhookHandler, h]
  · refine ⟨" " ++ msg, ?_, rfl⟩
    cases msg with
    | mk data => rfl

/-- Witness for claim C4 with an always-rejecting verifier. -/
theorem webhook_invalid_signature_witness :
    webhookHandler "payload" none none failVerify
      = ({ status := 400,
           body := .text ("Webhook Error: "
             ++ "No signatures found matching the expected signature for payload") },
         none) := by
  exact (webhook_invalid_signature "payload" none none
    "No signatures found matching the expected signature for payload" failVerify rfl).1

/-- Claim C5: when signature verification succeeds, whatever the event's type
tag (handled or not), the webhook responds 200 with the acknowledgement body,
and the only further effect is the dispatched switch arm (a log line). -/
theorem webhook_valid_ack (body : String) (sig : Option String)
    (envSecret : Option String)
    (constructEvent : String → Option String → String → Except String WebhookEvent)
    (event : WebhookEvent)
    (h : constructEvent body sig (jsOrString envSecret "whsec_test_...") = .ok event) :
    webhookHandler body sig envSecret constructEvent
      = ({ status := 200, body := .received true }, some (webhookDispatch event)) := by
  simp only [webhookHandler, h]

/-- Witness for claim C5 with an event type outside the handled cases. -/
theorem webhook_valid_ack_witness :
    webhookHandler "payload" (some "sig") none okVerify
      = ({ status := 200, body := .received true },
         some (webhookDispatch { type := "charge.refunded", object_id := "ch_1" })) := by
  exact webhook_valid_ack "payload" (some "sig") none okVerify
    { type := "charge.refunded", object_id := "ch_1" } rfl

/-- Claim C6: the unmatched-route fallback responds 404 with the error
"Endpoint not found" and the fixed list of available endpoints. -/
theorem unmatched_route_response :
    notFoundHandler.status = 404 ∧
    notFoundHandler.body = .notFound "Endpoint not found"
      ["GET /", "POST /create-payment-intent", "POST /webhook",
       "POST /api/auth/signup", "POST /api/auth/signin", "GET /api/auth/me"] :=
  ⟨rfl, rfl⟩

/-- Claim C7 counterexample: NODE_ENV "staging" is a non-production
configuration, yet the error middleware omits the underlying message there,
so message inclusion is not equivalent to being non-production. -/
theorem errorMiddleware_nonproduction_cex :
    some "staging" ≠ some "production" ∧
    errorMiddleware (some "staging") "boom"
      = { status := 500, body := .errWithMsg "Internal server error" none } := by
  exact ⟨by decide, rfl⟩

/-- Claim C7 as amended: every uncaught error is answered 500 with error
"Internal server error", and the underlying message is included exactly when
NODE_ENV is the development configuration. -/
theorem errorMiddleware_dev_only (nodeEnv : Option String) (msg : String) :
    (errorMiddleware nodeEnv msg).status = 500 ∧
    (errorMiddleware nodeEnv msg).body
        = .errWithMsg "Internal server error"
            (if nodeEnv = some "development" then some msg else none) ∧
    ((errorMiddleware nodeEnv msg).body
        = .errWithMsg "Internal server error" (some msg)
      ↔ nodeEnv = some "development") := by
  refine ⟨rfl, rfl, ?_⟩
  by_cases h : nodeEnv = some "development" <;> simp [errorMiddleware, h]

/-- Claim C8: the /api/auth/me route runs the protect guard before the getMe
handler, so a request without a valid credential is answered by the guard and
the outcome does not depend on getMe at all: getMe is never reached. -/
theorem protect_guards_getMe (getMe : AuthRequest → StepResult) (req : AuthRequest)
    (h : req.hasValidCredential = false) :
    runChain (meRoute getMe) req = runChain [protect] req ∧
    runChain (meRoute getMe) req
      = some { status := 401, body := .errOnly "Not authorized" } := by
  constructor <;> simp [meRoute, runChain, protect, h]

/-- Witness for claim C8 with a concrete getMe handler and an
uncredentialed request. -/
theorem protect_guards_getMe_witness :
    runChain (meRoute (fun _ => .respond { status := 200, body := .received true }))
        { hasValidCredential := false }
      = some { status := 401, body := .errOnly "Not authorized" } := by
  exact (protect_guards_getMe (fun _ => .respond { status := 200, body := .received true })
    { hasValidCredential := false } rfl).2

end ECom
